import Mathlib

/-!
Verification of `src/homework.py`: fitness-tracker metrics for three workout
kinds (Running, SportsWalking, Swimming), a summary formatter, and a
dispatching `read_package` constructor.

Python floats are modelled as rationals (`ℚ`); Python `x // y` (float floor
division) as `⌊x / y⌋` cast back to `ℚ`; operations that can raise
`ZeroDivisionError` also get fallible (`Option`) variants.  Strings are
modelled with Lean `String`; the `"{x:.3f}"` fixed-point formatting of
`str.format` is modelled by `fmt3`.
-/

/-- The three workout classes (`Running`, `SportsWalking`, `Swimming`),
each carrying the fields its `__init__` stores. -/
inductive Workout where
  | running (action duration weight : ℚ)
  | walking (action duration weight height : ℚ)
  | swimming (action duration weight length_pool count_pool : ℚ)
deriving DecidableEq, Repr

namespace Workout

/-- Constant `Training.M_IN_KM` (identical on every class). -/
def M_IN_KM : ℚ := 1000

/-- Constant `MIN_IN_H` on `Running` and `SportsWalking`. -/
def MIN_IN_H : ℚ := 60

/-- Class attribute `LEN_STEP`: 0.65 on `Training`/`Running`/`SportsWalking`,
overridden to 1.38 on `Swimming`. -/
def LEN_STEP : Workout → ℚ
  | running _ _ _ => 0.65
  | walking _ _ _ _ => 0.65
  | swimming _ _ _ _ _ => 1.38

/-- Field `self.action`. -/
def action : Workout → ℚ
  | running a _ _ => a
  | walking a _ _ _ => a
  | swimming a _ _ _ _ => a

/-- Field `self.duration`. -/
def duration : Workout → ℚ
  | running _ d _ => d
  | walking _ d _ _ => d
  | swimming _ d _ _ _ => d

/-- Field `self.weight`. -/
def weight : Workout → ℚ
  | running _ _ w => w
  | walking _ _ w _ => w
  | swimming _ _ w _ _ => w

/-- Class name `type(self).__name__`, as used by `show_training_info`. -/
def class_name : Workout → String
  | running _ _ _ => "Running"
  | walking _ _ _ _ => "SportsWalking"
  | swimming _ _ _ _ _ => "Swimming"

/-- Method `get_distance`: `self.action * self.LEN_STEP / self.M_IN_KM`.
(`Swimming.get_distance` overrides the base method with the same body,
so a single definition dispatching on `LEN_STEP` is faithful.) -/
def get_distance (w : Workout) : ℚ :=
  w.action * w.LEN_STEP / M_IN_KM

/-- Method `get_mean_speed`: base classes return `get_distance() / duration`;
`Swimming` overrides it with
`length_pool * count_pool / M_IN_KM / duration`. -/
def get_mean_speed : Workout → ℚ
  | swimming _ d _ l c => l * c / M_IN_KM / d
  | w => w.get_distance / w.duration

/-- Method `get_spent_calories`, one formula per subclass:
* `Running`: `(18 * speed - 20) * weight / M_IN_KM * duration * MIN_IN_H`;
* `SportsWalking`:
  `(0.035 * weight + (speed ** 2 // height) * 0.029 * weight) * duration * MIN_IN_H`
  (`//` is float floor division, modelled by `⌊·⌋`);
* `Swimming`: `(speed + 1.1) * 2 * weight`. -/
def get_spent_calories (w : Workout) : ℚ :=
  match w with
  | running _ d wt =>
      (18 * w.get_mean_speed - 20) * wt / M_IN_KM * d * MIN_IN_H
  | walking _ d wt h =>
      (0.035 * wt + (⌊w.get_mean_speed ^ 2 / h⌋ : ℚ) * 0.029 * wt) * d * MIN_IN_H
  | swimming _ _ wt _ _ =>
      (w.get_mean_speed + 1.1) * 2 * wt

end Workout

/-- Round a rational to the nearest integer, ties to even: model of how
CPython renders a value under `"{:.3f}"` (correct rounding of the value,
half-to-even). -/
def roundHalfEven (q : ℚ) : ℤ :=
  let n := ⌊q⌋
  if q - n < 1/2 then n
  else if 1/2 < q - n then n + 1
  else if n % 2 = 0 then n else n + 1

/-- Model of Python `"{:.3f}".format(q)`: optional sign, the integer part in
decimal, a dot, then exactly three digits. -/
def fmt3 (q : ℚ) : String :=
  let n := roundHalfEven (q * 1000)
  let m := n.natAbs
  String.mk ((if n < 0 then ['-'] else []) ++ Nat.toDigits 10 (m / 1000) ++
    ['.', Nat.digitChar (m / 100 % 10), Nat.digitChar (m / 10 % 10), Nat.digitChar (m % 10)])

/-- Number of characters after the last `.` of a string (its count of
displayed decimal digits). -/
def decDigits (s : String) : ℕ :=
  (s.data.reverse.takeWhile (fun c => c ≠ '.')).length

/-- Dataclass `InfoMessage` (the `info` template field is a constant; it is
inlined into `get_message` below). -/
structure InfoMessage where
  training_type : String
  duration : ℚ
  distance : ℚ
  speed : ℚ
  calories : ℚ
deriving DecidableEq, Repr

/-- Method `InfoMessage.get_message`: `self.info.format(**asdict(self))` with the
constant template
`'Тип тренировки: {training_type}; Длительность: {duration:.3f} ч.; Дистанция: {distance:.3f} км; Ср. скорость: {speed:.3f} км/ч; Потрачено ккал: {calories:.3f}.'`. -/
def get_message (msg : InfoMessage) : String :=
  "Тип тренировки: " ++ msg.training_type ++
  "; Длительность: " ++ fmt3 msg.duration ++
  " ч.; Дистанция: " ++ fmt3 msg.distance ++
  " км; Ср. скорость: " ++ fmt3 msg.speed ++
  " км/ч; Потрачено ккал: " ++ fmt3 msg.calories ++ "."

/-- Method `Training.show_training_info`: builds the `InfoMessage` from the class
name and the computed metrics. -/
def Workout.show_training_info (w : Workout) : InfoMessage :=
  ⟨w.class_name, w.duration, w.get_distance, w.get_mean_speed, w.get_spent_calories⟩

/-! ### Fallible variants

Python raises `ZeroDivisionError` when a divisor is zero; `ℚ` instead returns
0.  To reason about reachability of division errors, each division of the
source is also modelled with an `Option`-valued variant where a zero divisor
yields `none`. -/

/-- Python `a / b`: `none` models `ZeroDivisionError`. -/
def div? (a b : ℚ) : Option ℚ :=
  if b = 0 then none else some (a / b)

/-- Python float `a // b` (floor division): `none` models
`ZeroDivisionError`. -/
def floordiv? (a b : ℚ) : Option ℚ :=
  if b = 0 then none else some (⌊a / b⌋ : ℚ)

namespace Workout

/-- Fallible `get_distance` (the divisor `M_IN_KM` is the constant 1000). -/
def get_distance? (w : Workout) : Option ℚ :=
  div? (w.action * w.LEN_STEP) M_IN_KM

/-- Fallible `get_mean_speed`, dividing exactly where the source does. -/
def get_mean_speed? : Workout → Option ℚ
  | swimming _ d _ l c => do div? (← div? (l * c) M_IN_KM) d
  | w => do div? (← w.get_distance?) w.duration

/-- Fallible `get_spent_calories`, dividing exactly where the source does
(`SportsWalking` floor-divides by `self.height`). -/
def get_spent_calories? (w : Workout) : Option ℚ :=
  match w with
  | running _ d wt => do
      let s ← w.get_mean_speed?
      let x ← div? ((18 * s - 20) * wt) M_IN_KM
      pure (x * d * MIN_IN_H)
  | walking _ d wt h => do
      let s ← w.get_mean_speed?
      let f ← floordiv? (s ^ 2) h
      pure ((0.035 * wt + f * 0.029 * wt) * d * MIN_IN_H)
  | swimming _ _ wt _ _ => do
      let s ← w.get_mean_speed?
      pure ((s + 1.1) * 2 * wt)

/-- Fallible `show_training_info`: `none` iff any of the three metric
computations raises. -/
def show_training_info? (w : Workout) : Option InfoMessage := do
  let dist ← w.get_distance?
  let s ← w.get_mean_speed?
  let cal ← w.get_spent_calories?
  pure ⟨w.class_name, w.duration, dist, s, cal⟩

end Workout

/-! ### `read_package` -/

/-- The Python exceptions `read_package` can raise (`TypeError` models the
implicit failure of `cls(*data)` on a wrong number of fields). -/
inductive PyErr where
  | keyError (msg : String)
  | indexError (msg : String)
  | typeError
deriving DecidableEq, Repr

/-- The keys of `workout_generator`, in insertion order. -/
def workout_codes : List String := ["SWM", "RUN", "WLK"]

/-- Construction `workout_generator[workout_type](*data)`: positional construction of the
selected class, failing (`TypeError`) on an arity mismatch. -/
def construct_workout (workout_type : String) (data : List ℚ) : Except PyErr Workout :=
  match workout_type, data with
  | "SWM", [a, d, w, l, c] => .ok (.swimming a d w l c)
  | "RUN", [a, d, w] => .ok (.running a d w)
  | "WLK", [a, d, w, h] => .ok (.walking a d w h)
  | _, _ => .error .typeError

/-- Function `read_package`: unknown-type check, then the zero-field loop, then the
empty-data check, then construction. -/
def read_package (workout_type : String) (data : List ℚ) : Except PyErr Workout :=
  if workout_type ∉ workout_codes then
    .error (.keyError "Invalid training type. Available types: SWM, RUN, WLK")
  else if data.any (fun x => x = 0) then
    .error (.indexError "Data items can not be null")
  else if data.length = 0 then
    .error (.indexError "Invalid data")
  else
    construct_workout workout_type data

/-- The positional fields a constructed workout stores, in constructor
order. -/
def Workout.fields : Workout → List ℚ
  | .running a d w => [a, d, w]
  | .walking a d w h => [a, d, w, h]
  | .swimming a d w l c => [a, d, w, l, c]

/-- The extra divisor a full summary needs to be nonzero: `SportsWalking`
floor-divides by `self.height`; the other kinds have no further
data-dependent divisor. -/
def Workout.height_ok : Workout → Prop
  | .walking _ _ _ h => h ≠ 0
  | _ => True

/-! ### Helper lemmas -/

lemma digitChar_mod_ne_dot (m : ℕ) : Nat.digitChar (m % 10) ≠ '.' := by
  have h : m % 10 < 10 := Nat.mod_lt _ (by norm_num)
  interval_cases hh : (m % 10) <;> decide

/-- Formatting via `fmt3` always prints exactly three characters after its (unique) dot. -/
lemma fmt3_decDigits (q : ℚ) : decDigits (fmt3 q) = 3 := by
  unfold fmt3 decDigits
  simp [List.takeWhile_cons, digitChar_mod_ne_dot]

/-- A successfully constructed workout stores exactly the data list it was
built from. -/
lemma construct_workout_fields (wt : String) (data : List ℚ) (w : Workout)
    (h : construct_workout wt data = .ok w) : w.fields = data := by
  unfold construct_workout at h
  split at h <;> injection h
  all_goals subst_vars; simp [Workout.fields]

/-- Stored field list membership: `duration` is one of the stored fields. -/
lemma duration_mem_fields (w : Workout) : w.duration ∈ w.fields := by
  cases w <;> simp [Workout.duration, Workout.fields]

/-! ### Claim theorems -/

/-- C1 counterexample: on the Running sample (action=15000, duration=1,
weight=75) the code's calories are 699.75, which is not approximately
722.25 — it is off by 22.5. -/
theorem running_sample_calories_not_722 :
    (Workout.running 15000 1 75).get_spent_calories ≠ 722.25 ∧
    (722.25 : ℚ) - (Workout.running 15000 1 75).get_spent_calories = 22.5 := by
  constructor <;>
    norm_num [Workout.get_spent_calories, Workout.get_mean_speed, Workout.get_distance,
      Workout.action, Workout.duration, Workout.LEN_STEP, Workout.M_IN_KM, Workout.MIN_IN_H]

/-- C1 (amended): for Running with action=15000, duration=1, weight=75,
`get_distance` is 9.75 km, `get_mean_speed` is 9.75 km/h, and
`get_spent_calories` is `(18*9.75-20)*75/1000*1*60`, which equals exactly
699.75 (not approximately 722.25). -/
theorem running_sample_metrics :
    (Workout.running 15000 1 75).get_distance = 9.75 ∧
    (Workout.running 15000 1 75).get_mean_speed = 9.75 ∧
    (Workout.running 15000 1 75).get_spent_calories = (18 * 9.75 - 20) * 75 / 1000 * 1 * 60 ∧
    (Workout.running 15000 1 75).get_spent_calories = 699.75 := by
  refine ⟨?_, ?_, ?_, ?_⟩ <;>
    norm_num [Workout.get_spent_calories, Workout.get_mean_speed, Workout.get_distance,
      Workout.action, Workout.duration, Workout.LEN_STEP, Workout.M_IN_KM, Workout.MIN_IN_H]

/-- C2 counterexample: the summary of the Running sample is not the English
template claimed by the spec — the source template is Russian. -/
theorem get_message_not_english_template :
    get_message ⟨"Running", 1, 9.75, 9.75, 699.75⟩ ≠
      "Training type: Running; Duration: 1.000 h; Distance: 9.750 km; Avg speed: 9.750 km/h; Calories: 699.750." := by
  norm_num [get_message, fmt3, roundHalfEven]
  decide

/-- C2 (amended): for every workout summary, `get_message` is exactly the
source's fixed (Russian-label) template
`"Тип тренировки: {kind}; Длительность: {duration:.3f} ч.; Дистанция: {distance:.3f} км; Ср. скорость: {speed:.3f} км/ч; Потрачено ккал: {calories:.3f}."`,
and each of the four numeric fields is rendered in fixed point with
exactly three decimal digits, regardless of input magnitude. -/
theorem get_message_template (msg : InfoMessage) :
    get_message msg =
      "Тип тренировки: " ++ msg.training_type ++
      "; Длительность: " ++ fmt3 msg.duration ++
      " ч.; Дистанция: " ++ fmt3 msg.distance ++
      " км; Ср. скорость: " ++ fmt3 msg.speed ++
      " км/ч; Потрачено ккал: " ++ fmt3 msg.calories ++ "." ∧
    decDigits (fmt3 msg.duration) = 3 ∧
    decDigits (fmt3 msg.distance) = 3 ∧
    decDigits (fmt3 msg.speed) = 3 ∧
    decDigits (fmt3 msg.calories) = 3 :=
  ⟨rfl, fmt3_decDigits _, fmt3_decDigits _, fmt3_decDigits _, fmt3_decDigits _⟩

/-- C6: for Swimming with action=720, duration=1, weight=80, pool_length=25,
pool_laps=40, `get_mean_speed` is 25*40/1000/1 = 1.0 km/h and
`get_spent_calories` is (1.0+1.1)*2*80 = 336.0. -/
theorem swimming_sample_metrics :
    (Workout.swimming 720 1 80 25 40).get_mean_speed = 25 * 40 / 1000 / 1 ∧
    (Workout.swimming 720 1 80 25 40).get_mean_speed = 1 ∧
    (Workout.swimming 720 1 80 25 40).get_spent_calories = (1 + 1.1) * 2 * 80 ∧
    (Workout.swimming 720 1 80 25 40).get_spent_calories = 336 := by
  refine ⟨?_, ?_, ?_, ?_⟩ <;>
    norm_num [Workout.get_spent_calories, Workout.get_mean_speed, Workout.M_IN_KM]

/-- C7: `get_distance` is `action * 0.65 / 1000` for Running and Walking, and
`action * 1.38 / 1000` for Swimming (its own stroke-length constant). -/
theorem distance_per_kind (a d wt h l c : ℚ) :
    (Workout.running a d wt).get_distance = a * 0.65 / 1000 ∧
    (Workout.walking a d wt h).get_distance = a * 0.65 / 1000 ∧
    (Workout.swimming a d wt l c).get_distance = a * 1.38 / 1000 := by
  refine ⟨?_, ?_, ?_⟩ <;>
    simp [Workout.get_distance, Workout.action, Workout.LEN_STEP, Workout.M_IN_KM]

/-- C3: for every Walking workout with nonzero height, `get_spent_calories`
is `(0.035*weight + (mean_speed^2 floor-div height) * 0.029 * weight) *
duration * 60`, where the division is a floor division; and (second
conjunct) on the Walking sample the result differs from what real division
would give. -/
theorem walking_calories_floor_div :
    (∀ a d wt h : ℚ, h ≠ 0 →
      (Workout.walking a d wt h).get_spent_calories =
        (0.035 * wt +
          (⌊(Workout.walking a d wt h).get_mean_speed ^ 2 / h⌋ : ℚ) * 0.029 * wt) * d * 60) ∧
    (Workout.walking 9000 1 75 180).get_spent_calories ≠
      (0.035 * 75 +
        ((Workout.walking 9000 1 75 180).get_mean_speed ^ 2 / 180) * 0.029 * 75) * 1 * 60 := by
  constructor
  · intro a d wt h hh
    simp [Workout.get_spent_calories, Workout.MIN_IN_H]
  · norm_num [Workout.get_spent_calories, Workout.get_mean_speed, Workout.get_distance,
      Workout.action, Workout.duration, Workout.LEN_STEP, Workout.M_IN_KM, Workout.MIN_IN_H]

/-- C3 witness: the floor-division calorie formula instantiated on the
Walking sample (action=9000, duration=1, weight=75, height=180). -/
theorem walking_calories_floor_div_witness :
    (Workout.walking 9000 1 75 180).get_spent_calories =
      (0.035 * 75 +
        (⌊(Workout.walking 9000 1 75 180).get_mean_speed ^ 2 / 180⌋ : ℚ) * 0.029 * 75) * 1 * 60 :=
  walking_calories_floor_div.1 9000 1 75 180 (by norm_num)

/-- C4: an unrecognized workout code always fails with the unknown-type
error listing exactly SWM, RUN, WLK, and a recognized code with an empty
data list always fails with the empty-data error. -/
theorem read_package_error_cases :
    (∀ wt : String, wt ∉ workout_codes → ∀ data : List ℚ,
      read_package wt data =
        .error (.keyError "Invalid training type. Available types: SWM, RUN, WLK")) ∧
    (∀ wt ∈ workout_codes,
      read_package wt ([] : List ℚ) = .error (.indexError "Invalid data")) := by
  constructor
  · intro wt hwt data
    simp [read_package, hwt]
  · intro wt hwt
    simp [read_package, hwt]

/-- C4 witness: the unknown code "XYZ" and the recognized code "RUN" with
empty data. -/
theorem read_package_error_cases_witness :
    read_package "XYZ" [1, 2] =
      .error (.keyError "Invalid training type. Available types: SWM, RUN, WLK") ∧
    read_package "RUN" ([] : List ℚ) = .error (.indexError "Invalid data") :=
  ⟨read_package_error_cases.1 "XYZ" (by decide) [1, 2],
   read_package_error_cases.2 "RUN" (by decide)⟩

/-- C5: for every Swimming workout with nonzero duration, `get_mean_speed`
is `length_pool * count_pool / 1000 / duration`, and two Swimming workouts
differing only in `action` have the same mean speed. -/
theorem swimming_mean_speed_ignores_action (a a' d wt l c : ℚ) (hd : d ≠ 0) :
    (Workout.swimming a d wt l c).get_mean_speed = l * c / 1000 / d ∧
    (Workout.swimming a d wt l c).get_mean_speed =
      (Workout.swimming a' d wt l c).get_mean_speed := by
  constructor <;> simp [Workout.get_mean_speed, Workout.M_IN_KM]

/-- C5 witness: the Swimming sample against a copy with a different
action count. -/
theorem swimming_mean_speed_ignores_action_witness :
    (Workout.swimming 720 1 80 25 40).get_mean_speed = 25 * 40 / 1000 / 1 ∧
    (Workout.swimming 720 1 80 25 40).get_mean_speed =
      (Workout.swimming 999 1 80 25 40).get_mean_speed :=
  swimming_mean_speed_ignores_action 720 999 1 80 25 40 (by norm_num)

/-- C8 counterexample: a Walking workout with nonzero duration but zero
height still hits a division error in the full summary
(`speed ** 2 // height` raises `ZeroDivisionError`). -/
theorem walking_zero_height_summary_fails :
    (Workout.walking 1 1 1 0).duration ≠ 0 ∧
    (Workout.walking 1 1 1 0).show_training_info? = none := by
  constructor
  · norm_num [Workout.duration]
  · rfl

/-- C8 (amended): under the precondition `duration ≠ 0`, `get_mean_speed`
involves no division by zero for any of the three kinds (the fallible
variant returns the computed speed); the full summary via
`show_training_info` additionally needs a nonzero height for Walking. -/
theorem mean_speed_no_div_zero :
    (∀ w : Workout, w.duration ≠ 0 → w.get_mean_speed? = some w.get_mean_speed) ∧
    (∀ w : Workout, w.duration ≠ 0 → w.height_ok →
      w.show_training_info? = some w.show_training_info) := by
  constructor
  · intro w hd
    cases w <;>
      norm_num [Workout.duration] at hd <;>
      norm_num [Workout.get_mean_speed?, Workout.get_distance?, Workout.get_mean_speed,
        Workout.get_distance, div?, Workout.duration, Workout.M_IN_KM, Workout.action,
        Workout.LEN_STEP, hd]
  · intro w hd hh
    cases w <;>
      norm_num [Workout.duration] at hd <;>
      norm_num [Workout.height_ok] at hh <;>
      norm_num [Workout.show_training_info?, Workout.show_training_info,
        Workout.get_spent_calories?, Workout.get_spent_calories,
        Workout.get_mean_speed?, Workout.get_distance?, Workout.get_mean_speed,
        Workout.get_distance, div?, floordiv?, Workout.duration, Workout.M_IN_KM,
        Workout.action, Workout.LEN_STEP, Workout.MIN_IN_H, Workout.weight,
        Workout.class_name, hd, hh]

/-- C8 witness: the Running sample's mean speed and the Walking sample's
full summary both succeed. -/
theorem mean_speed_no_div_zero_witness :
    (Workout.running 15000 1 75).get_mean_speed? =
      some (Workout.running 15000 1 75).get_mean_speed ∧
    (Workout.walking 9000 1 75 180).show_training_info? =
      some (Workout.walking 9000 1 75 180).show_training_info :=
  ⟨mean_speed_no_div_zero.1 _ (by norm_num [Workout.duration]),
   mean_speed_no_div_zero.2 _ (by norm_num [Workout.duration])
     (by norm_num [Workout.height_ok])⟩

/-- C9 counterexample: with a negative action count (which `read_package`
accepts), mean speed is not non-increasing in duration: for action = -1000,
durations 1 ≤ 2 give speeds -0.65 < -0.325. -/
theorem negative_action_speed_not_antitone :
    0 < (1 : ℚ) ∧ (1 : ℚ) ≤ 2 ∧
    ¬((Workout.running (-1000) 2 75).get_mean_speed ≤
        (Workout.running (-1000) 1 75).get_mean_speed) := by
  refine ⟨by norm_num, by norm_num, ?_⟩
  norm_num [Workout.get_mean_speed, Workout.get_distance, Workout.action,
    Workout.LEN_STEP, Workout.M_IN_KM, Workout.duration]

/-- C9 (amended): with all other fields fixed and duration positive,
`get_distance` and `get_mean_speed` are non-decreasing in `action` for every
kind; and for nonnegative `action` (and, for Swimming, nonnegative pool
length and lap count — raw sensor counts), `get_mean_speed` is
non-increasing in `duration`. -/
theorem metrics_monotone :
    (∀ a a' d wt : ℚ, a ≤ a' →
      (Workout.running a d wt).get_distance ≤ (Workout.running a' d wt).get_distance) ∧
    (∀ a a' d wt h : ℚ, a ≤ a' →
      (Workout.walking a d wt h).get_distance ≤ (Workout.walking a' d wt h).get_distance) ∧
    (∀ a a' d wt l c : ℚ, a ≤ a' →
      (Workout.swimming a d wt l c).get_distance ≤ (Workout.swimming a' d wt l c).get_distance) ∧
    (∀ a a' d wt : ℚ, 0 < d → a ≤ a' →
      (Workout.running a d wt).get_mean_speed ≤ (Workout.running a' d wt).get_mean_speed) ∧
    (∀ a a' d wt h : ℚ, 0 < d → a ≤ a' →
      (Workout.walking a d wt h).get_mean_speed ≤ (Workout.walking a' d wt h).get_mean_speed) ∧
    (∀ a a' d wt l c : ℚ, 0 < d → a ≤ a' →
      (Workout.swimming a d wt l c).get_mean_speed ≤ (Workout.swimming a' d wt l c).get_mean_speed) ∧
    (∀ a d d' wt : ℚ, 0 ≤ a → 0 < d → d ≤ d' →
      (Workout.running a d' wt).get_mean_speed ≤ (Workout.running a d wt).get_mean_speed) ∧
    (∀ a d d' wt h : ℚ, 0 ≤ a → 0 < d → d ≤ d' →
      (Workout.walking a d' wt h).get_mean_speed ≤ (Workout.walking a d wt h).get_mean_speed) ∧
    (∀ a d d' wt l c : ℚ, 0 ≤ l → 0 ≤ c → 0 < d → d ≤ d' →
      (Workout.swimming a d' wt l c).get_mean_speed ≤ (Workout.swimming a d wt l c).get_mean_speed) := by
  refine ⟨?_, ?_, ?_, ?_, ?_, ?_, ?_, ?_, ?_⟩ <;> intros <;>
    simp only [Workout.get_distance, Workout.get_mean_speed, Workout.action,
      Workout.LEN_STEP, Workout.duration, Workout.M_IN_KM] <;>
    first
      | exact le_rfl
      | gcongr

/-- C9 witness: the monotonicity conjuncts instantiated on the Running
sample against doubled action and doubled duration. -/
theorem metrics_monotone_witness :
    (Workout.running 15000 1 75).get_distance ≤ (Workout.running 30000 1 75).get_distance ∧
    (Workout.running 15000 1 75).get_mean_speed ≤ (Workout.running 30000 1 75).get_mean_speed ∧
    (Workout.running 15000 2 75).get_mean_speed ≤ (Workout.running 15000 1 75).get_mean_speed :=
  ⟨metrics_monotone.1 15000 30000 1 75 (by norm_num),
   metrics_monotone.2.2.2.1 15000 30000 1 75 (by norm_num) (by norm_num),
   metrics_monotone.2.2.2.2.2.2.1 15000 1 2 75 (by norm_num) (by norm_num) (by norm_num)⟩

/-- C10: for every recognized code, a data list containing a zero field
makes `read_package` fail with the null-field error (before any workout is
constructed); and every workout `read_package` returns has all stored
fields nonzero, in particular a nonzero duration. -/
theorem read_package_rejects_zero_fields :
    (∀ wt ∈ workout_codes, ∀ data : List ℚ, (0 : ℚ) ∈ data →
      read_package wt data = .error (.indexError "Data items can not be null")) ∧
    (∀ (wt : String) (data : List ℚ) (w : Workout),
      read_package wt data = .ok w → ∀ x ∈ w.fields, x ≠ 0) ∧
    (∀ (wt : String) (data : List ℚ) (w : Workout),
      read_package wt data = .ok w → w.duration ≠ 0) := by
  have hmain : ∀ (wt : String) (data : List ℚ) (w : Workout),
      read_package wt data = .ok w → ∀ x ∈ w.fields, x ≠ 0 := by
    intro wt data w hok x hx hx0
    simp only [read_package] at hok
    split_ifs at hok with h1 h2 h3
    have hfld := construct_workout_fields wt data w hok
    rw [hfld] at hx
    exact h2 (List.any_eq_true.mpr ⟨x, hx, by simp [hx0]⟩)
  refine ⟨?_, hmain, ?_⟩
  · intro wt hwt data hdata
    have hany : data.any (fun x => x = 0) = true :=
      List.any_eq_true.mpr ⟨0, hdata, by simp⟩
    simp [read_package, hwt, hany]
  · intro wt data w hok
    exact hmain wt data w hok _ (duration_mem_fields w)

/-- C10 witness: "RUN" with a zero duration field is rejected, and the
Running sample constructed by `read_package` has its nonzero fields. -/
theorem read_package_rejects_zero_fields_witness :
    read_package "RUN" [15000, 0, 75] =
      .error (.indexError "Data items can not be null") ∧
    (15000 : ℚ) ≠ 0 ∧ (Workout.running 15000 1 75).duration ≠ 0 :=
  ⟨read_package_rejects_zero_fields.1 "RUN" (by decide) [15000, 0, 75] (by simp),
   read_package_rejects_zero_fields.2.1 "RUN" [15000, 1, 75] (Workout.running 15000 1 75)
     (by rfl) 15000 (by simp [Workout.fields]),
   read_package_rejects_zero_fields.2.2 "RUN" [15000, 1, 75] (Workout.running 15000 1 75)
     (by rfl)⟩
